import Mathlib

/-!
Verification of the AstroBiology publication pipeline.

Shallow embedding of the Python sources:
* `services/api/nasa_data/fetcher.py` — rule-based classifiers, year
  extraction, date parsing (`datetime.strptime` semantics of the six
  format patterns, as implemented by the CPython regex-based `_strptime`);
* `services/api/main.py` — tokenizer, keyword extractor, bag-of-words
  cosine similarity (floats modelled as real numbers);
* `services/api/database/service.py` — `create_publication`,
  `search_publications` (SQL `ILIKE` semantics for the free-text match),
  `ingest_nasa_data`, and the author/keyword attachment helpers, over an
  explicit in-memory database state.

Strings are treated as their character lists; Python `str.lower()` /
`str.strip()` are modelled for ASCII text.
-/

namespace AstroBio

/-! Section: Basic text utilities (ASCII model of Python string primitives) -/

/-- ASCII lower-casing of one character, as `str.lower()` does for ASCII. -/
def lowerChar (c : Char) : Char :=
  if 'A' ≤ c ∧ c ≤ 'Z' then Char.ofNat (c.toNat + 32) else c

/-- Lower-case a character list. -/
def lowerStr (s : List Char) : List Char := s.map lowerChar

/-- Test `leadsWith sub l` : `sub` is an initial segment of `l`. -/
def leadsWith : List Char → List Char → Bool
  | [], _ => true
  | _ :: _, [] => false
  | a :: as, b :: bs => a == b && leadsWith as bs

/-- Test `occursIn sub l` : `sub` occurs contiguously inside `l`
(the Python `sub in l` on strings). -/
def occursIn : List Char → List Char → Bool
  | sub, [] => sub.isEmpty
  | sub, c :: cs => leadsWith sub (c :: cs) || occursIn sub cs

/-- Python whitespace characters stripped by `str.strip()` (ASCII subset). -/
def isPySpace (c : Char) : Bool :=
  c == ' ' || c == '\t' || c == '\n' || c == '\r' || c == '\x0b' || c == '\x0c'

/-- Python `str.strip()` : remove leading and trailing whitespace. -/
def pyStrip (s : String) : String :=
  ⟨((s.data.dropWhile isPySpace).reverse.dropWhile isPySpace).reverse⟩

/-! Section: Record classifier (`fetcher.py`, `classify_organism_type` /
`classify_research_domain`) -/

def humanWords : List String := ["human", "astronaut", "crew", "personnel", "person"]
def plantWords : List String := ["plant", "arabidopsis", "crop", "vegetation", "botanical"]
def microbeWords : List String := ["microbe", "bacteria", "virus", "microbial", "pathogen"]
def animalWords : List String := ["animal", "mouse", "rat", "rodent", "mammal"]

/-- Check `any(word in text for word in ws)`. -/
def anyWordIn (ws : List String) (text : List Char) : Bool :=
  ws.any (fun w => occursIn w.data text)

/-- The combined classification text: `f"{title} {abstract}".lower()`. -/
def classifyText (title abstract : String) : List Char :=
  lowerStr (title ++ " " ++ abstract).data

/-- Embedding of `NASADataFetcher.classify_organism_type` on a record with the given
title and abstract (`pub.get('title','')`, `pub.get('abstract','')`). -/
def classify_organism_type (title abstract : String) : String :=
  let text := classifyText title abstract
  if anyWordIn humanWords text then "Human"
  else if anyWordIn plantWords text then "Plant"
  else if anyWordIn microbeWords text then "Microbe"
  else if anyWordIn animalWords text then "Animal"
  else "Other"

def microgravityWords : List String := ["microgravity", "weightless", "zero gravity"]
def radiationWords : List String := ["radiation", "cosmic ray", "solar particle"]
def boneWords : List String := ["bone", "skeleton", "osteo", "density"]
def immuneWords : List String := ["immune", "immunity", "infection"]
def cardioWords : List String := ["cardiovascular", "heart", "circulation"]
def psychWords : List String := ["psychological", "behavior", "stress"]

/-- Embedding of `NASADataFetcher.classify_research_domain`. -/
def classify_research_domain (title abstract : String) : String :=
  let text := classifyText title abstract
  if anyWordIn microgravityWords text then "Microgravity"
  else if anyWordIn radiationWords text then "Radiation"
  else if anyWordIn boneWords text then "Bone/Musculoskeletal"
  else if anyWordIn immuneWords text then "Immunology"
  else if anyWordIn cardioWords text then "Cardiovascular"
  else if anyWordIn psychWords text then "Psychology/Behavior"
  else "General"

/-! Section: Year extraction (`fetcher.py`, `_extract_year`) -/

/-- Numeric value of a decimal digit character. -/
def dv (c : Char) : Nat := c.toNat - 48

/-- Search `re.search` for a 4-digit group : value of the first position where four
consecutive digits occur, scanning left to right. -/
def firstFourDigits : List Char → Option Nat
  | c1 :: c2 :: c3 :: c4 :: rest =>
    if c1.isDigit && c2.isDigit && c3.isDigit && c4.isDigit then
      some (dv c1 * 1000 + dv c2 * 100 + dv c3 * 10 + dv c4)
    else firstFourDigits (c2 :: c3 :: c4 :: rest)
  | _ => none

/-- Embedding of `NASADataFetcher._extract_year`. -/
def _extract_year (s : String) : Option Nat :=
  if s.data.isEmpty then none
  else
    match firstFourDigits s.data with
    | some year => if 1900 ≤ year ∧ year ≤ 2030 then some year else none
    | none => none

/-! Section: Date parsing (`fetcher.py`, `_parse_date`)

`datetime.strptime` is modelled after the CPython `_strptime`, which compiles
the format to a regex and requires it to consume the whole (truncated)
input.  Directive patterns used here:
`%Y = \d\d\d\d`, `%m = 1[0-2]|0[1-9]|[1-9]`, `%d = 3[01]|[12]\d|0[1-9]|[1-9]`,
`%H = 2[0-3]|[0-1]\d|\d`, `%M = [0-5]\d|\d`, `%S = 6[0-1]|[0-5]\d|\d`,
`%f = [0-9]{1,6}` (greedy).  Alternatives are tried with full backtracking,
exactly as the regex engine does.  Calendar validation (e.g. Feb 30) is not
modelled; no claim depends on it. -/

structure DT where
  year : Nat
  month : Nat
  day : Nat
  hour : Nat
  minute : Nat
  second : Nat
  micro : Nat
deriving DecidableEq

/-- The `strptime` defaults: 1900-01-01 00:00:00. -/
def defaultDT : DT := ⟨1900, 1, 1, 0, 0, 0, 0⟩

inductive FmtItem where
  | lit (c : Char)
  | dY | dm | dd | dH | dM | dS | df
deriving DecidableEq

/-- Interpret a strptime format string as a list of items. -/
def toItems : List Char → List FmtItem
  | [] => []
  | '%' :: 'Y' :: r => .dY :: toItems r
  | '%' :: 'm' :: r => .dm :: toItems r
  | '%' :: 'd' :: r => .dd :: toItems r
  | '%' :: 'H' :: r => .dH :: toItems r
  | '%' :: 'M' :: r => .dM :: toItems r
  | '%' :: 'S' :: r => .dS :: toItems r
  | '%' :: 'f' :: r => .df :: toItems r
  | c :: r => .lit c :: toItems r

def twoDig (c1 c2 : Char) : Nat := dv c1 * 10 + dv c2

/-- Directive `%Y` : exactly four digits. -/
def altsY : List Char → List (Nat × List Char)
  | c1 :: c2 :: c3 :: c4 :: r =>
    if c1.isDigit ∧ c2.isDigit ∧ c3.isDigit ∧ c4.isDigit then
      [(dv c1 * 1000 + dv c2 * 100 + dv c3 * 10 + dv c4, r)]
    else []
  | _ => []

/-- Directive `%m` : `1[0-2]|0[1-9]|[1-9]`, alternatives in regex order. -/
def altsm : List Char → List (Nat × List Char)
  | c1 :: c2 :: r =>
    (if c1 = '1' ∧ '0' ≤ c2 ∧ c2 ≤ '2' then [(10 + dv c2, r)] else []) ++
    (if c1 = '0' ∧ '1' ≤ c2 ∧ c2 ≤ '9' then [(dv c2, r)] else []) ++
    (if '1' ≤ c1 ∧ c1 ≤ '9' then [(dv c1, c2 :: r)] else [])
  | [c1] => if '1' ≤ c1 ∧ c1 ≤ '9' then [(dv c1, [])] else []
  | [] => []

/-- Directive `%d` : `3[01]|[12]\d|0[1-9]|[1-9]`. -/
def altsd : List Char → List (Nat × List Char)
  | c1 :: c2 :: r =>
    (if c1 = '3' ∧ (c2 = '0' ∨ c2 = '1') then [(30 + dv c2, r)] else []) ++
    (if (c1 = '1' ∨ c1 = '2') ∧ c2.isDigit then [(twoDig c1 c2, r)] else []) ++
    (if c1 = '0' ∧ '1' ≤ c2 ∧ c2 ≤ '9' then [(dv c2, r)] else []) ++
    (if '1' ≤ c1 ∧ c1 ≤ '9' then [(dv c1, c2 :: r)] else [])
  | [c1] => if '1' ≤ c1 ∧ c1 ≤ '9' then [(dv c1, [])] else []
  | [] => []

/-- Directive `%H` : `2[0-3]|[0-1]\d|\d`. -/
def altsH : List Char → List (Nat × List Char)
  | c1 :: c2 :: r =>
    (if c1 = '2' ∧ '0' ≤ c2 ∧ c2 ≤ '3' then [(20 + dv c2, r)] else []) ++
    (if (c1 = '0' ∨ c1 = '1') ∧ c2.isDigit then [(twoDig c1 c2, r)] else []) ++
    (if c1.isDigit then [(dv c1, c2 :: r)] else [])
  | [c1] => if c1.isDigit then [(dv c1, [])] else []
  | [] => []

/-- Directive `%M` : `[0-5]\d|\d`. -/
def altsM : List Char → List (Nat × List Char)
  | c1 :: c2 :: r =>
    (if '0' ≤ c1 ∧ c1 ≤ '5' ∧ c2.isDigit then [(twoDig c1 c2, r)] else []) ++
    (if c1.isDigit then [(dv c1, c2 :: r)] else [])
  | [c1] => if c1.isDigit then [(dv c1, [])] else []
  | [] => []

/-- Directive `%S` : `6[0-1]|[0-5]\d|\d`. -/
def altsS : List Char → List (Nat × List Char)
  | c1 :: c2 :: r =>
    (if c1 = '6' ∧ (c2 = '0' ∨ c2 = '1') then [(60 + dv c2, r)] else []) ++
    (if '0' ≤ c1 ∧ c1 ≤ '5' ∧ c2.isDigit then [(twoDig c1 c2, r)] else []) ++
    (if c1.isDigit then [(dv c1, c2 :: r)] else [])
  | [c1] => if c1.isDigit then [(dv c1, [])] else []
  | [] => []

def numOf (l : List Char) : Nat := l.foldl (fun a c => a * 10 + dv c) 0

/-- Directive `%f` : one to six digits, greedy, longest alternative first. -/
def altsf (s : List Char) : List (Nat × List Char) :=
  let ds := (s.takeWhile Char.isDigit).take 6
  (List.range ds.length).map fun i =>
    let len := ds.length - i
    (numOf (ds.take len), s.drop len)

/-- A literal format character must match the next input character. -/
def altsLit (c : Char) : List Char → List (Nat × List Char)
  | [] => []
  | d :: r => if d = c then [(0, r)] else []

def itemAlts : FmtItem → List Char → List (Nat × List Char)
  | .lit c, s => altsLit c s
  | .dY, s => altsY s
  | .dm, s => altsm s
  | .dd, s => altsd s
  | .dH, s => altsH s
  | .dM, s => altsM s
  | .dS, s => altsS s
  | .df, s => altsf s

def applyItem (dt : DT) : FmtItem → Nat → DT
  | .lit _, _ => dt
  | .dY, v => { dt with year := v }
  | .dm, v => { dt with month := v }
  | .dd, v => { dt with day := v }
  | .dH, v => { dt with hour := v }
  | .dM, v => { dt with minute := v }
  | .dS, v => { dt with second := v }
  | .df, v => { dt with micro := v }

/-- Run the compiled format against the input with full backtracking; the
whole input must be consumed (`strptime` raises on unconverted data). -/
def runFmt : List FmtItem → List Char → DT → Option DT
  | [], s, dt => if s.isEmpty then some dt else none
  | it :: its, s, dt =>
    (itemAlts it s).findSome? fun vr => runFmt its vr.2 (applyItem dt it vr.1)

/-- Length `len(fmt.replace(percent-f, six digits))` : the truncation length used by
`_parse_date` for each format. -/
def truncLen : List Char → Nat
  | [] => 0
  | '%' :: 'f' :: r => 6 + truncLen r
  | _ :: r => 1 + truncLen r

/-- The ordered format list of `_parse_date`. -/
def dateFormats : List String :=
  ["%Y-%m-%dT%H:%M:%S.%fZ", "%Y-%m-%dT%H:%M:%SZ", "%Y-%m-%d", "%Y/%m/%d",
   "%m/%d/%Y", "%Y"]

/-- Embedding of `NASADataFetcher._parse_date`: try each format on the input truncated to
the own length of the format; first success wins, else `None`. -/
def _parse_date (s : String) : Option DT :=
  if s.data.isEmpty then none
  else
    dateFormats.findSome? fun fmt =>
      runFmt (toItems fmt.data) (s.data.take (truncLen fmt.data)) defaultDT

/-! Section: Text normalizer (`main.py`, `_tokens`) -/

/-- The fixed stopword set `_STOPWORDS` of `main.py`. -/
def STOPWORDS : List String :=
  ["the", "and", "a", "an", "in", "on", "for", "of", "to", "is", "are", "was",
   "were", "be", "been", "being", "with", "by", "as", "at", "that", "this",
   "these", "those", "it", "its", "from", "or", "we", "our", "you", "your",
   "their", "they", "he", "she", "his", "her", "i", "me", "my", "mine", "but",
   "not", "no", "yes", "can", "will", "would", "could", "should", "may",
   "might", "into", "about", "over", "under", "between", "among", "than",
   "such", "more", "most", "least", "also", "using", "use", "used", "via",
   "per", "each", "both", "if", "then", "else"]

/-- A character kept by the token split `re.split(r"[^a-z0-9]+", ...)`
(the text is lower-cased first, so only `a-z` and `0-9` occur in tokens). -/
def isTokChar (c : Char) : Bool :=
  ('a' ≤ c && c ≤ 'z') || ('0' ≤ c && c ≤ '9')

/-- Maximal runs of token characters (the split collapses every run of
non-alphanumeric characters; empty fragments are dropped). -/
def runsAux : List Char → List Char → List (List Char)
  | cur, [] => if cur.isEmpty then [] else [cur.reverse]
  | cur, c :: cs =>
    if isTokChar c then runsAux (c :: cur) cs
    else if cur.isEmpty then runsAux [] cs
    else cur.reverse :: runsAux [] cs

/-- Embedding of `_tokens` from `main.py`: lower-case, split on non-alphanumeric runs, keep
tokens that are not stopwords and have length > 1. -/
def _tokens (s : String) : List String :=
  ((runsAux [] (lowerStr s.data)).map fun l => (⟨l⟩ : String)).filter
    fun t => !(STOPWORDS.contains t) && t.length > 1

/-! Section: Keyword extractor (`main.py`, `_top_keywords`) -/

/-- Update the insertion-ordered frequency list with one token
(`freq[t] = freq.get(t, 0) + 1` on an insertion-ordered dict). -/
def bump : List (String × Nat) → String → List (String × Nat)
  | [], t => [(t, 1)]
  | (s, n) :: rest, t =>
    if s == t then (s, n + 1) :: rest else (s, n) :: bump rest t

/-- Token frequency mapping, in first-seen (insertion) order. -/
def freqOf (text : String) : List (String × Nat) := (_tokens text).foldl bump []

/-- The order used by `sorted(freq.items(), key=lambda kv: kv[1],
reverse=True)`: descending count.  the Python `sorted` is stable, and a stable
insertion sort by this relation reproduces it exactly. -/
def countGe (a b : String × Nat) : Prop := b.2 ≤ a.2

instance : DecidableRel countGe := fun a b => inferInstanceAs (Decidable (b.2 ≤ a.2))

/-- Embedding of `_top_keywords` from `main.py`. -/
def _top_keywords (text : String) (k : Nat := 5) : List String :=
  (((freqOf text).insertionSort countGe).take k).map Prod.fst

/-! Section: Bag-of-words similarity (`main.py`, `_bow` / `_cosine_sim`)

Term-frequency dicts are modelled as finitely supported functions
`String →₀ ℝ` (float arithmetic modelled as exact reals).  A key missing
from the dict reads as 0 (`q.get(t, 0.0)`); a term-frequency vector never
stores an explicit zero, so the key set of the dict is the support. -/

abbrev TermVec := String →₀ ℝ

/-- Dot product `sum(q.get(t,0)*d.get(t,0) for t in set(q)|set(d))`. -/
noncomputable def cosDot (q d : TermVec) : ℝ :=
  ∑ t ∈ q.support ∪ d.support, q t * d t

/-- Magnitude `sqrt(sum(v*v for v in q.values())) or 1.0` — the Python `or`
replaces a zero magnitude by 1.0. -/
noncomputable def magOr1 (q : TermVec) : ℝ :=
  let m := Real.sqrt (∑ t ∈ q.support, q t * q t)
  if m = 0 then 1 else m

/-- Embedding of `_cosine_sim` from `main.py`. -/
noncomputable def _cosine_sim (q d : TermVec) : ℝ :=
  cosDot q d / (magOr1 q * magOr1 d)

/-- Embedding of `_bow` from `main.py`: term-frequency vector of a text. -/
noncomputable def _bow (text : String) : TermVec :=
  (_tokens text).foldl (fun v t => v + Finsupp.single t 1) 0

/-! Section: Database state (`database/models.py` + `database/service.py`)

Rows are records; association tables are id lists on the publication;
`db.query(...).first()` is `List.find?` in insertion order; `flush`
assigns the next primary key.  Fields never touched by the service
(`full_text`, `volume`, AI fields, timestamps, ...) are omitted. -/

structure PubRec where
  id : Nat
  nasa_id : Option String
  title : String
  abstract : String
  doi : Option String
  url : Option String
  publication_date : Option DT
  publication_year : Option Int
  publication_type : String
  journal_name : Option String
  organism_type : String
  research_domain : String
  authors : List Nat
  keywords : List Nat
deriving DecidableEq

structure AuthorRec where
  id : Nat
  name : String
deriving DecidableEq

structure KeywordRec where
  id : Nat
  term : String
  usage_count : Nat
deriving DecidableEq

structure DB where
  pubs : List PubRec
  authors : List AuthorRec
  keywords : List KeywordRec
  searchIndex : List (Nat × String)
  dataSources : List (String × Nat)
  nextPubId : Nat
  nextAuthorId : Nat
  nextKeywordId : Nat
deriving DecidableEq

/-- The `pub_data` dict consumed by `create_publication`; `none` models a
missing key, so `pub_data.get(k, default)` is `getD`. -/
structure PubData where
  nasa_id : Option String
  title : Option String
  abstract : Option String
  doi : Option String
  url : Option String
  publication_date : Option DT
  publication_year : Option Int
  publication_type : Option String
  journal_name : Option String
  authors : List String
  keywords : List String
deriving DecidableEq

/-- Embedding of `DatabaseService._add_authors_to_publication`: for each name, skip
blanks, find-or-create the author by stripped name, attach to the
publication only if not already attached.  Returns the updated
publication, author table and next author id. -/
def addAuthors : PubRec → List AuthorRec → Nat → List String → PubRec × List AuthorRec × Nat
  | pub, table, next, [] => (pub, table, next)
  | pub, table, next, name :: rest =>
    if (pyStrip name).data.isEmpty then addAuthors pub table next rest
    else
      let fc : AuthorRec × List AuthorRec × Nat :=
        match table.find? (fun a => a.name == pyStrip name) with
        | some a => (a, table, next)
        | none => (⟨next, pyStrip name⟩, table ++ [⟨next, pyStrip name⟩], next + 1)
      let pub2 :=
        if pub.authors.contains fc.1.id then pub
        else { pub with authors := pub.authors ++ [fc.1.id] }
      addAuthors pub2 fc.2.1 fc.2.2 rest

/-- Increment the `usage_count` of one keyword in the table. -/
def bumpUsage (table : List KeywordRec) (kid : Nat) : List KeywordRec :=
  table.map fun k =>
    if k.id == kid then { k with usage_count := k.usage_count + 1 } else k

/-- Embedding of `DatabaseService._add_keywords_to_publication`: for each term, skip
blanks, find-or-create the keyword by stripped term (created rows start at
the column default `usage_count = 0`), increment its usage counter
unconditionally, then attach only if not already attached. -/
def addKeywords : PubRec → List KeywordRec → Nat → List String → PubRec × List KeywordRec × Nat
  | pub, table, next, [] => (pub, table, next)
  | pub, table, next, term :: rest =>
    if (pyStrip term).data.isEmpty then addKeywords pub table next rest
    else
      let fc : Nat × List KeywordRec × Nat :=
        match table.find? (fun k => k.term == pyStrip term) with
        | some k => (k.id, table, next)
        | none => (next, table ++ [⟨next, pyStrip term, 0⟩], next + 1)
      let table2 := bumpUsage fc.2.1 fc.1
      let pub2 :=
        if pub.keywords.contains fc.1 then pub
        else { pub with keywords := pub.keywords ++ [fc.1] }
      addKeywords pub2 table2 fc.2.2 rest

/-- Embedding of `DatabaseService.create_publication`: look up by `nasa_id`; if found,
return the existing row unchanged; otherwise build the row (classifying
organism type and research domain from title and abstract), attach authors
and keywords, add the search-index entry, and commit. -/
def create_publication (db : DB) (d : PubData) : PubRec × DB :=
  match db.pubs.find? (fun p => p.nasa_id == d.nasa_id) with
  | some existing => (existing, db)
  | none =>
    let pub0 : PubRec :=
      { id := db.nextPubId
        nasa_id := d.nasa_id
        title := d.title.getD ""
        abstract := d.abstract.getD ""
        doi := d.doi
        url := d.url
        publication_date := d.publication_date
        publication_year := d.publication_year
        publication_type := d.publication_type.getD "unknown"
        journal_name := d.journal_name
        organism_type := classify_organism_type (d.title.getD "") (d.abstract.getD "")
        research_domain := classify_research_domain (d.title.getD "") (d.abstract.getD "")
        authors := []
        keywords := [] }
    let ra := addAuthors pub0 db.authors db.nextAuthorId d.authors
    let rk := addKeywords ra.1 db.keywords db.nextKeywordId d.keywords
    let pub := rk.1
    (pub,
      { pubs := db.pubs ++ [pub]
        authors := ra.2.1
        keywords := rk.2.1
        searchIndex := db.searchIndex ++ [(pub.id, pyStrip (pub.title ++ " " ++ pub.abstract))]
        dataSources := db.dataSources
        nextPubId := db.nextPubId + 1
        nextAuthorId := ra.2.2
        nextKeywordId := rk.2.2 })

/-! Section: Search (`service.py`, `search_publications`)

The free-text search applies `ilike` with the query wrapped in percent
signs to the title OR the abstract.  SQL `LIKE`/`ILIKE` interprets `%` as "any run of
characters" and `_` as "any single character", case-insensitively; the
query string is interpolated into the pattern unescaped. -/

/-- SQL `LIKE` pattern matching, case-insensitive (`ILIKE`): `%` matches
any run of characters, `_` any single character. -/
def likeMatch : List Char → List Char → Bool
  | [], s => s.isEmpty
  | p :: ps, s =>
    if p = '%' then s.tails.any fun t => likeMatch ps t
    else if p = '_' then
      match s with
      | [] => false
      | _ :: s2 => likeMatch ps s2
    else
      match s with
      | [] => false
      | c :: s2 => (lowerChar p == lowerChar c) && likeMatch ps s2

/-- A query string free of the SQL wildcard characters `%` and `_`. -/
def noWild : List Char → Bool
  | [] => true
  | c :: r => c != '%' && c != '_' && noWild r

/-- Predicate for `ilike` of the query wrapped in percent signs. -/
def ilikeContains (q : String) (column : String) : Bool :=
  likeMatch ('%' :: (q.data ++ ['%'])) column.data

/-- The four optional exact-match filters of `search_publications`. -/
structure Filters where
  organism_type : Option String
  research_domain : Option String
  publication_year : Option Int
  publication_type : Option String
deriving DecidableEq

/-- The empty filter dict. -/
def noFilters : Filters := ⟨none, none, none, none⟩

/-- One optional string filter: applied only when the value is truthy
(present and non-empty — `if filters.get(key):`). -/
def filterStr (v : Option String) (field : String) : Bool :=
  match v with
  | some s => if s.data.isEmpty then true else field == s
  | none => true

/-- The optional year filter: applied only when present and non-zero. -/
def filterInt (v : Option Int) (field : Option Int) : Bool :=
  match v with
  | some y => if y == 0 then true else field == some y
  | none => true

/-- The conjunction of the four optional exact-match filters. -/
def matchesFilters (fl : Filters) (p : PubRec) : Bool :=
  filterStr fl.organism_type p.organism_type &&
  filterStr fl.research_domain p.research_domain &&
  filterInt fl.publication_year p.publication_year &&
  filterStr fl.publication_type p.publication_type

/-- Guard `if query:` — applied only when the query is present and non-empty. -/
def matchesQuery (q : Option String) (p : PubRec) : Bool :=
  match q with
  | none => true
  | some s =>
    if s.data.isEmpty then true
    else ilikeContains s p.title || ilikeContains s p.abstract

/-- Comparison for `ORDER BY publication_year DESC`; a NULL year sorts last
(SQLite treats NULL as smallest, so DESC puts it at the end). -/
def yearGe (a b : Option Int) : Bool :=
  match a, b with
  | none, none => true
  | none, some _ => false
  | some _, none => true
  | some x, some y => y ≤ x

def pubYearGe (a b : PubRec) : Prop :=
  yearGe a.publication_year b.publication_year = true

instance : DecidableRel pubYearGe :=
  fun a b =>
    inferInstanceAs (Decidable (yearGe a.publication_year b.publication_year = true))

structure SearchResult where
  publications : List PubRec
  total : Nat
  offset : Nat
  limit : Nat
deriving DecidableEq

/-- Embedding of `DatabaseService.search_publications`: conjunctive filters, optional
free-text `ILIKE` match, total counted on the filtered set, then
`ORDER BY publication_year DESC` with `offset`/`limit`. -/
def search_publications (db : DB) (query : Option String) (fl : Filters)
    (limit : Nat := 20) (offset : Nat := 0) : SearchResult :=
  let filtered := db.pubs.filter fun p => matchesFilters fl p && matchesQuery query p
  { publications := ((filtered.insertionSort pubYearGe).drop offset).take limit
    total := filtered.length
    offset := offset
    limit := limit }

/-! Section: Ingestion (`service.py`, `ingest_nasa_data`)

The three network fetchers are abstracted as data: whatever lists of raw
records they would return.  The per-record classification enhancement
(assigning organism type and research domain into the dict) sets keys that
`create_publication` never reads, so it does not affect the stored rows;
per-record exceptions (DB errors) are not modelled, so the error list of a
run is empty. -/

structure Fetcher where
  ntrs : Nat → List PubData
  openData : List PubData
  pubspace : Nat → List PubData

/-- Python `source_name.lower()` (ASCII). -/
def strLower (s : String) : String := ⟨lowerStr s.data⟩

/-- The source-selection branch of `ingest_nasa_data`: unrecognized names
fall through to "try all sources" with `limit//3` for NTRS and PubSpace. -/
def selectPublications (f : Fetcher) (source_name : String) (limit : Nat) : List PubData :=
  if strLower source_name == "ntrs" then f.ntrs limit
  else if strLower source_name == "open_data" then f.openData
  else if strLower source_name == "pubspace" then f.pubspace limit
  else f.ntrs (limit / 3) ++ f.openData ++ f.pubspace (limit / 3)

/-- Embedding of `DatabaseService._update_data_source` (sync timestamp omitted). -/
def updateDataSource (db : DB) (name : String) (cnt : Nat) : DB :=
  if db.dataSources.any (fun p => p.1 == name) then
    { db with dataSources :=
        db.dataSources.map fun p => if p.1 == name then (p.1, p.2 + cnt) else p }
  else
    { db with dataSources := db.dataSources ++ [(name, cnt)] }

structure IngestResult where
  source : String
  ingested : Nat
  errors : List String
deriving DecidableEq

/-- Embedding of `DatabaseService.ingest_nasa_data`. -/
def ingest_nasa_data (db : DB) (f : Fetcher) (source_name : String)
    (limit : Nat := 100) : IngestResult × DB :=
  let publications := selectPublications f source_name limit
  let r := publications.foldl
    (fun (acc : Nat × DB) d => (acc.1 + 1, (create_publication acc.2 d).2)) (0, db)
  let db2 := updateDataSource r.2 source_name r.1
  ({ source := source_name, ingested := r.1, errors := [] }, db2)

/-! Section: Concrete fixtures used by the witnesses and counterexamples -/

/-- A stored publication with the given id, source id and year, labelled
`Plant`, with no associations. -/
def plantPub (i : Nat) (nid : String) (y : Int) : PubRec :=
  { id := i, nasa_id := some nid, title := "Plant study", abstract := ""
    doi := none, url := none, publication_date := none
    publication_year := some y, publication_type := "unknown"
    journal_name := none, organism_type := "Plant", research_domain := "General"
    authors := [], keywords := [] }

/-- Five `Plant` publications with distinct descending years. -/
def exSearchDb : DB :=
  { pubs := [plantPub 1 "n1" 2020, plantPub 2 "n2" 2019, plantPub 3 "n3" 2018,
             plantPub 4 "n4" 2017, plantPub 5 "n5" 2016]
    authors := [], keywords := [], searchIndex := [], dataSources := []
    nextPubId := 6, nextAuthorId := 1, nextKeywordId := 1 }

/-- One publication whose title is `"axb"`. -/
def wildPub : PubRec :=
  { id := 1, nasa_id := some "w1", title := "axb", abstract := "zzz"
    doi := none, url := none, publication_date := none
    publication_year := some 2020, publication_type := "unknown"
    journal_name := none, organism_type := "Other", research_domain := "General"
    authors := [], keywords := [] }

def exWildDb : DB :=
  { pubs := [wildPub], authors := [], keywords := [], searchIndex := []
    dataSources := [], nextPubId := 2, nextAuthorId := 1, nextKeywordId := 1 }

/-- A publication with no keyword associations yet. -/
def exKwPub : PubRec := plantPub 9 "p9" 2020

/-- A fetcher returning fixed record lists, for concrete ingestion runs. -/
def exFetcher : Fetcher :=
  { ntrs := fun _ => []
    openData := []
    pubspace := fun _ => [] }

/-! Section: General lemmas -/

theorem leadsWith_append_left {a b l : List Char}
    (h : leadsWith (a ++ b) l = true) : leadsWith a l = true := by
  induction a generalizing l with
  | nil => rfl
  | cons x xs ih =>
    cases l with
    | nil => simp [leadsWith] at h
    | cons y ys =>
      simp only [List.cons_append, leadsWith, Bool.and_eq_true] at h ⊢
      exact ⟨h.1, ih h.2⟩

theorem occursIn_append_left {a b l : List Char}
    (h : occursIn (a ++ b) l = true) : occursIn a l = true := by
  induction l with
  | nil =>
    simp only [occursIn, List.isEmpty_iff, List.append_eq_nil] at h ⊢
    exact h.1
  | cons c cs ih =>
    simp only [occursIn, Bool.or_eq_true] at h ⊢
    rcases h with h | h
    · exact Or.inl (leadsWith_append_left h)
    · exact Or.inr (ih h)

/-! Section: Claim theorems -/

/-- C2: both classifications are first-match-wins over the fixed ordered
rule lists on `lowercase(title + " " + abstract)`; text containing
"astronaut" yields organism "Human"; text containing "human" and
"bone density" with no earlier domain trigger yields organism "Human" and
domain "Bone/Musculoskeletal"; the rule order and the two defaults are as
specified. -/
theorem c2_classifier_rules :
    (∀ title abstract : String,
      occursIn "astronaut".data (classifyText title abstract) = true →
        classify_organism_type title abstract = "Human") ∧
    (∀ title abstract : String,
      occursIn "human".data (classifyText title abstract) = true →
      occursIn "bone density".data (classifyText title abstract) = true →
      anyWordIn microgravityWords (classifyText title abstract) = false →
      anyWordIn radiationWords (classifyText title abstract) = false →
        classify_organism_type title abstract = "Human" ∧
        classify_research_domain title abstract = "Bone/Musculoskeletal") ∧
    classify_organism_type "human plant microbe animal" "" = "Human" ∧
    classify_organism_type "plant microbe animal" "" = "Plant" ∧
    classify_organism_type "microbe animal" "" = "Microbe" ∧
    classify_organism_type "animal subjects" "" = "Animal" ∧
    classify_organism_type "spaceflight experiment" "" = "Other" ∧
    classify_research_domain "microgravity radiation bone immune heart stress" ""
      = "Microgravity" ∧
    classify_research_domain "radiation bone immune heart stress" "" = "Radiation" ∧
    classify_research_domain "bone immune heart stress" "" = "Bone/Musculoskeletal" ∧
    classify_research_domain "immune heart stress" "" = "Immunology" ∧
    classify_research_domain "heart stress" "" = "Cardiovascular" ∧
    classify_research_domain "stress response" "" = "Psychology/Behavior" ∧
    classify_research_domain "general topic" "" = "General" := by
  refine ⟨?_, ?_, by decide, by decide, by decide, by decide, by decide, by decide,
    by decide, by decide, by decide, by decide, by decide, by decide⟩
  · intro title abstract h
    have hany : anyWordIn humanWords (classifyText title abstract) = true := by
      unfold anyWordIn
      rw [List.any_eq_true]
      exact ⟨"astronaut", by decide, h⟩
    simp [classify_organism_type, hany]
  · intro title abstract hhuman hbdens hmicro hrad
    have hany : anyWordIn humanWords (classifyText title abstract) = true := by
      unfold anyWordIn
      rw [List.any_eq_true]
      exact ⟨"human", by decide, hhuman⟩
    have hbone : occursIn "bone".data (classifyText title abstract) = true :=
      occursIn_append_left
        (show occursIn ("bone".data ++ " density".data) _ = true from hbdens)
    have hbany : anyWordIn boneWords (classifyText title abstract) = true := by
      unfold anyWordIn
      rw [List.any_eq_true]
      exact ⟨"bone", by decide, hbone⟩
    constructor
    · simp [classify_organism_type, hany]
    · simp [classify_research_domain, hmicro, hrad, hbany]

/-- C2 witness: the classifier hypotheses hold on concrete texts. -/
theorem c2_classifier_rules_witness :
    classify_organism_type "Astronaut microbiome" "" = "Human" ∧
    classify_organism_type "Human bone density loss" "" = "Human" ∧
    classify_research_domain "Human bone density loss" "" = "Bone/Musculoskeletal" :=
  ⟨c2_classifier_rules.1 "Astronaut microbiome" "" (by decide),
   (c2_classifier_rules.2.1 "Human bone density loss" "" (by decide) (by decide)
     (by decide) (by decide)).1,
   (c2_classifier_rules.2.1 "Human bone density loss" "" (by decide) (by decide)
     (by decide) (by decide)).2⟩

/-- C6 counterexample: `"1875 2015"` contains the 4-digit run `"2015"`,
whose value lies in [1900, 2030] (the extractor accepts it standing alone),
yet `_extract_year "1875 2015"` is `none`: the regex tests only the FIRST
4-digit match, here `1875`, which is out of range.  This refutes "for every
input string containing a 4-digit run whose value lies in [1900, 2030], a
year is returned". -/
theorem c6_first_run_out_of_range :
    occursIn "2015".data "1875 2015".data = true ∧
    _extract_year "2015" = some 2015 ∧
    _extract_year "1875 2015" = none := by decide

/-- C6 (amended): the extractor tests only the first 4-digit run and
accepts it only within [1900, 2030]; any returned year lies in that range;
`"2015-03-01T00:00:00Z"` yields 2015, `"not a date"` and `"1875"` yield
null. -/
theorem c6_extract_year_first_match :
    (∀ (s : String) (y : Nat), _extract_year s = some y → 1900 ≤ y ∧ y ≤ 2030) ∧
    _extract_year "2015-03-01T00:00:00Z" = some 2015 ∧
    _extract_year "not a date" = none ∧
    _extract_year "1875" = none := by
  refine ⟨?_, by decide, by decide, by decide⟩
  intro s y h
  unfold _extract_year at h
  split at h
  · exact absurd h (by simp)
  · split at h
    · split at h
      · obtain rfl := Option.some.inj h
        assumption
      · exact absurd h (by simp)
    · exact absurd h (by simp)

/-- C6 witness: the range bound applied at a concrete accepted input. -/
theorem c6_extract_year_first_match_witness : 1900 ≤ 2015 ∧ 2015 ≤ 2030 :=
  c6_extract_year_first_match.1 "2015-03-01T00:00:00Z" 2015 (by decide)

/-- C7: tokenization lower-cases, splits on non-alphanumeric runs, and
keeps a token only if it is not a stopword and has length > 1; on
`"The Cat and THE dog."` it yields exactly `["cat", "dog"]`. -/
theorem c7_tokens_normalization :
    _tokens "The Cat and THE dog." = ["cat", "dog"] ∧
    ∀ (s t : String), t ∈ _tokens s →
      STOPWORDS.contains t = false ∧ 1 < t.length := by
  refine ⟨by decide, ?_⟩
  intro s t ht
  unfold _tokens at ht
  rw [List.mem_filter] at ht
  obtain ⟨-, hp⟩ := ht
  simp only [Bool.and_eq_true, Bool.not_eq_true', decide_eq_true_eq] at hp
  exact hp

/-- C7 witness: the token predicate applied to `"cat"` from the example. -/
theorem c7_tokens_normalization_witness :
    STOPWORDS.contains "cat" = false ∧ 1 < ("cat" : String).length :=
  c7_tokens_normalization.2 "The Cat and THE dog." "cat" (by decide)

theorem addAuthors_fst_nasa_id :
    ∀ (names : List String) (pub : PubRec) (table : List AuthorRec) (next : Nat),
      (addAuthors pub table next names).1.nasa_id = pub.nasa_id := by
  intro names
  induction names with
  | nil => intro pub table next; rfl
  | cons n rest ih =>
    intro pub table next
    unfold addAuthors
    split
    · exact ih pub table next
    · simp only [ih]
      split <;> rfl

theorem addKeywords_fst_nasa_id :
    ∀ (terms : List String) (pub : PubRec) (table : List KeywordRec) (next : Nat),
      (addKeywords pub table next terms).1.nasa_id = pub.nasa_id := by
  intro terms
  induction terms with
  | nil => intro pub table next; rfl
  | cons t rest ih =>
    intro pub table next
    unfold addKeywords
    split
    · exact ih pub table next
    · simp only [ih]
      split <;> rfl

/-- C1: `create_publication` is idempotent in the source identifier: a
second call with the same `pub_data` returns the very same record and
leaves the whole database state (publications, authors, keywords,
associations, counters) unchanged — the second call finds the existing row
and returns before any insertion or merge. -/
theorem c1_create_publication_idempotent (db : DB) (d : PubData) :
    create_publication (create_publication db d).2 d = create_publication db d := by
  rcases hcall : create_publication db d with ⟨p1, db1⟩
  cases hf : db.pubs.find? (fun p => p.nasa_id == d.nasa_id) with
  | some e =>
    have he : (e, db) = (p1, db1) := by
      rw [← hcall]
      unfold create_publication
      rw [hf]
    obtain ⟨he1, he2⟩ := Prod.mk.injEq _ _ _ _ ▸ he
    subst he1
    subst he2
    show create_publication db d = (e, db)
    unfold create_publication
    rw [hf]
  | none =>
    simp only [create_publication, hf] at hcall
    obtain ⟨hp, hdb⟩ := Prod.mk.injEq _ _ _ _ ▸ hcall
    have key1 : p1.nasa_id = d.nasa_id := by
      rw [← hp, addKeywords_fst_nasa_id, addAuthors_fst_nasa_id]
    have key2 : db1.pubs = db.pubs ++ [p1] := by
      rw [← hdb, ← hp]
    have hfind : db1.pubs.find? (fun p => p.nasa_id == d.nasa_id) = some p1 := by
      rw [key2, List.find?_append, hf]
      simp [List.find?, key1]
    show create_publication db1 d = (p1, db1)
    unfold create_publication
    rw [hfind]

/-- C5 counterexample: attaching `["cat", "cat"]` to a publication with no
keywords leaves the single pair (publication 9, keyword 0) associated once,
but the global usage counter of the keyword at 2 — the increment runs once per
occurrence, before the not-already-attached guard, so it is NOT "at most
once per publication–keyword pair". -/
theorem c5_usage_count_double_increment :
    (addKeywords exKwPub [] 0 ["cat", "cat"]).2.1 = [⟨0, "cat", 2⟩] ∧
    (addKeywords exKwPub [] 0 ["cat", "cat"]).1.keywords = [0] := by decide

theorem addKeywords_replicate_loop (t : String)
    (hne : (pyStrip t).data.isEmpty = false) :
    ∀ (m : Nat) (pub : PubRec) (c : Nat), pub.keywords.contains 0 = true →
      addKeywords pub [⟨0, pyStrip t, c⟩] 1 (List.replicate m t) =
        (pub, [⟨0, pyStrip t, c + m⟩], 1) := by
  intro m
  induction m with
  | zero => intro pub c h0; rfl
  | succ k ih =>
    intro pub c h0
    rw [List.replicate_succ]
    unfold addKeywords
    rw [if_neg (by simp [hne])]
    simp only [List.find?, beq_self_eq_true, bumpUsage, List.map, if_pos rfl, h0,
      if_true, beq_self_eq_true]
    have hres := ih pub (c + 1) h0
    rw [show c + 1 + k = c + (k + 1) by omega] at hres
    exact hres

/-- C5 (amended): within one call, the usage counter is incremented once
per occurrence of a (nonempty, trimmed) term in the input list — a term
occurring `n` times yields a counter of `n`, not at most 1 — while the
not-already-attached guard only keeps the publication–keyword association
itself from being duplicated (it is attached exactly once). -/
theorem c5_usage_count_per_occurrence (pub : PubRec) (t : String) (n : Nat)
    (hkw : pub.keywords = []) (hne : (pyStrip t).data.isEmpty = false)
    (hn : 1 ≤ n) :
    (addKeywords pub [] 0 (List.replicate n t)).2.1 = [⟨0, pyStrip t, n⟩] ∧
    (addKeywords pub [] 0 (List.replicate n t)).1 = { pub with keywords := [0] } := by
  cases n with
  | zero => omega
  | succ k =>
    rw [List.replicate_succ]
    unfold addKeywords
    rw [if_neg (by simp [hne])]
    simp only [List.find?]
    have hcont : pub.keywords.contains 0 = false := by rw [hkw]; rfl
    simp only [hcont, Bool.false_eq_true, if_false, bumpUsage, List.map,
      beq_self_eq_true, if_pos rfl, if_true, Nat.zero_add]
    have hcont2 : ({ pub with keywords := pub.keywords ++ [0] } : PubRec).keywords.contains 0
        = true := by
      rw [hkw]; rfl
    have hres := addKeywords_replicate_loop t hne k
      { pub with keywords := pub.keywords ++ [0] } 1 hcont2
    rw [show (1 : Nat) + k = k + 1 by omega] at hres
    rw [hres]
    rw [hkw]
    exact ⟨rfl, rfl⟩

/-- C5 witness: the amended statement at `n = 2` repetitions of `"cat"`. -/
theorem c5_usage_count_per_occurrence_witness :
    (addKeywords exKwPub [] 0 (List.replicate 2 "cat")).2.1 = [⟨0, pyStrip "cat", 2⟩] ∧
    (addKeywords exKwPub [] 0 (List.replicate 2 "cat")).1 =
      { exKwPub with keywords := [0] } :=
  c5_usage_count_per_occurrence exKwPub "cat" 2 (by decide) (by decide) (by decide)

/-- C8: the keyword extractor returns at most `k` tokens; the underlying
sorted frequency list is in descending count order (so ties, kept adjacent
by the stable sort, stay in first-seen order); on a text with one token
five times and four distinct single tokens the repeated token comes first
and the singles follow in first-seen order; fewer than `k` tokens are
returned when fewer distinct tokens exist. -/
theorem c8_top_keywords_properties :
    (∀ (text : String) (k : Nat), (_top_keywords text k).length ≤ k) ∧
    (∀ (text : String) (k : Nat),
      (((freqOf text).insertionSort countGe).take k).Pairwise countGe) ∧
    _top_keywords "alpha beta gamma delta epsilon alpha alpha alpha alpha" 5 =
      ["alpha", "beta", "gamma", "delta", "epsilon"] ∧
    _top_keywords "alpha beta gamma delta epsilon alpha alpha alpha alpha" 3 =
      ["alpha", "beta", "gamma"] ∧
    _top_keywords "cat cat" 5 = ["cat"] := by
  refine ⟨?_, ?_, by decide, by decide, by decide⟩
  · intro text k
    unfold _top_keywords
    rw [List.length_map]
    exact List.length_take_le k _
  · intro text k
    haveI : IsTotal (String × Nat) countGe := ⟨fun a b => le_total b.2 a.2⟩
    haveI : IsTrans (String × Nat) countGe := ⟨fun a b c h1 h2 => le_trans h2 h1⟩
    exact (List.sorted_insertionSort countGe (freqOf text)).sublist
      (List.take_sublist k _)

theorem ingest_count (l : List PubData) :
    ∀ (n : Nat) (db : DB),
      (l.foldl (fun (acc : Nat × DB) d => (acc.1 + 1, (create_publication acc.2 d).2))
        (n, db)).1 = n + l.length := by
  induction l with
  | nil => intro n db; simp
  | cons d rest ih =>
    intro n db
    rw [List.foldl_cons, ih]
    simp
    omega

/-- C9: a source name whose lowercase form is none of `ntrs`, `open_data`,
`pubspace` is not rejected: ingestion falls through to fetching all three
sources — NTRS and PubSpace with `limit // 3`, plus the open-data source —
and ingests the combined list, reporting no error. -/
theorem c9_unknown_source_fetches_all (f : Fetcher) (db : DB) (src : String)
    (limit : Nat) (h1 : (strLower src == "ntrs") = false)
    (h2 : (strLower src == "open_data") = false)
    (h3 : (strLower src == "pubspace") = false) :
    selectPublications f src limit =
      f.ntrs (limit / 3) ++ f.openData ++ f.pubspace (limit / 3) ∧
    (ingest_nasa_data db f src limit).1.errors = [] ∧
    (ingest_nasa_data db f src limit).1.ingested =
      (f.ntrs (limit / 3) ++ f.openData ++ f.pubspace (limit / 3)).length := by
  have hsel : selectPublications f src limit =
      f.ntrs (limit / 3) ++ f.openData ++ f.pubspace (limit / 3) := by
    simp [selectPublications, h1, h2, h3]
  refine ⟨hsel, rfl, ?_⟩
  show (ingest_nasa_data db f src limit).1.ingested = _
  simp only [ingest_nasa_data, hsel, ingest_count]
  omega

/-- C9 witness: ingesting from the unrecognized source name `"all"`. -/
theorem c9_unknown_source_fetches_all_witness :
    selectPublications exFetcher "all" 9 =
      exFetcher.ntrs (9 / 3) ++ exFetcher.openData ++ exFetcher.pubspace (9 / 3) ∧
    (ingest_nasa_data exSearchDb exFetcher "all" 9).1.errors = [] ∧
    (ingest_nasa_data exSearchDb exFetcher "all" 9).1.ingested =
      (exFetcher.ntrs (9 / 3) ++ exFetcher.openData ++ exFetcher.pubspace (9 / 3)).length :=
  c9_unknown_source_fetches_all exFetcher exSearchDb "all" 9
    (by decide) (by decide) (by decide)

theorem yearGe_total (a b : Option Int) : yearGe a b = true ∨ yearGe b a = true := by
  cases a <;> cases b
  all_goals simp [yearGe]
  omega

theorem yearGe_trans {a b c : Option Int} (h1 : yearGe a b = true)
    (h2 : yearGe b c = true) : yearGe a c = true := by
  cases a <;> cases b <;> cases c
  all_goals simp_all [yearGe]
  omega

theorem likeMatch_cons (p : Char) (ps s : List Char) :
    likeMatch (p :: ps) s =
      if p = '%' then s.tails.any fun t => likeMatch ps t
      else if p = '_' then
        match s with
        | [] => false
        | _ :: s2 => likeMatch ps s2
      else
        match s with
        | [] => false
        | c :: s2 => (lowerChar p == lowerChar c) && likeMatch ps s2 := by
  rfl

theorem likeMatch_percent_nil (s : List Char) : likeMatch ['%'] s = true := by
  rw [likeMatch_cons, if_pos rfl, List.any_eq_true]
  exact ⟨[], (List.mem_tails _ _).mpr List.nil_suffix, rfl⟩

theorem leadsWith_nil_right (sub : List Char) : leadsWith sub [] = sub.isEmpty := by
  cases sub <;> rfl

theorem occursIn_eq_any_tails (sub : List Char) :
    ∀ l : List Char, occursIn sub l = l.tails.any fun t => leadsWith sub t := by
  intro l
  induction l with
  | nil =>
    show occursIn sub [] = ([[]] : List (List Char)).any fun t => leadsWith sub t
    rw [List.any_cons, List.any_nil, Bool.or_false, leadsWith_nil_right]
    rfl
  | cons c cs ih =>
    rw [List.tails_cons, List.any_cons, ← ih]
    rfl

theorem tails_lowerStr (s : List Char) :
    (lowerStr s).tails = s.tails.map lowerStr := by
  induction s with
  | nil => rfl
  | cons c cs ih =>
    show (lowerChar c :: lowerStr cs).tails = _
    rw [List.tails_cons, List.tails_cons, List.map_cons, ih]
    rfl

theorem likeMatch_literal :
    ∀ q : List Char, noWild q = true →
      ∀ s : List Char, likeMatch (q ++ ['%']) s = leadsWith (lowerStr q) (lowerStr s) := by
  intro q
  induction q with
  | nil =>
    intro _ s
    rw [List.nil_append, likeMatch_percent_nil]
    rfl
  | cons c q' ih =>
    intro hq s
    have h : (c != '%') = true ∧ (c != '_') = true ∧ noWild q' = true := by
      simpa [noWild, Bool.and_eq_true, and_assoc] using hq
    have h1 : ¬(c = '%') := by simpa using h.1
    have h2 : ¬(c = '_') := by simpa using h.2.1
    cases s with
    | nil =>
      rw [List.cons_append, likeMatch_cons, if_neg h1, if_neg h2]
      rfl
    | cons d s2 =>
      rw [List.cons_append, likeMatch_cons, if_neg h1, if_neg h2]
      show ((lowerChar c == lowerChar d) && likeMatch (q' ++ ['%']) s2) = _
      rw [ih h.2.2 s2]
      rfl

theorem likeMatch_pct (q : List Char) (hq : noWild q = true) (s : List Char) :
    likeMatch ('%' :: (q ++ ['%'])) s = occursIn (lowerStr q) (lowerStr s) := by
  have hL : likeMatch ('%' :: (q ++ ['%'])) s =
      s.tails.any fun t => likeMatch (q ++ ['%']) t := by
    rw [likeMatch_cons, if_pos rfl]
  rw [hL]
  have hlit : ∀ t, likeMatch (q ++ ['%']) t = leadsWith (lowerStr q) (lowerStr t) :=
    likeMatch_literal q hq
  calc (s.tails.any fun t => likeMatch (q ++ ['%']) t)
      = s.tails.any fun t => leadsWith (lowerStr q) (lowerStr t) := by
        simp only [hlit]
    _ = (s.tails.map lowerStr).any fun t => leadsWith (lowerStr q) t := by
        rw [List.any_map]
        rfl
    _ = (lowerStr s).tails.any fun t => leadsWith (lowerStr q) t := by
        rw [tails_lowerStr]
    _ = occursIn (lowerStr q) (lowerStr s) := (occursIn_eq_any_tails _ _).symm

/-- For wildcard-free queries, the `ILIKE` text match is exactly
case-insensitive substring containment on title or abstract. -/
theorem matchesQuery_wildcard_free (s : String) (p : PubRec)
    (hs : noWild s.data = true) :
    matchesQuery (some s) p =
      (occursIn (lowerStr s.data) (lowerStr p.title.data) ||
       occursIn (lowerStr s.data) (lowerStr p.abstract.data)) := by
  show (if s.data.isEmpty = true then true
        else likeMatch ('%' :: (s.data ++ ['%'])) p.title.data ||
          likeMatch ('%' :: (s.data ++ ['%'])) p.abstract.data) = _
  by_cases he : s.data.isEmpty = true
  · have hnil : s.data = [] := by simpa [List.isEmpty_iff] using he
    rw [if_pos he, hnil]
    have h1 : ∀ X : List Char, occursIn (lowerStr []) X = true := by
      intro X
      cases X <;> rfl
    rw [h1, h1]
    rfl
  · rw [if_neg he, likeMatch_pct _ hs, likeMatch_pct _ hs]

theorem search_mem {db : DB} {q : Option String} {fl : Filters}
    {limit offset : Nat} {p : PubRec}
    (hp : p ∈ (search_publications db q fl limit offset).publications) :
    p ∈ db.pubs.filter fun r => matchesFilters fl r && matchesQuery q r := by
  unfold search_publications at hp
  have h1 := List.mem_of_mem_take hp
  have h2 := List.mem_of_mem_drop h1
  exact ((List.perm_insertionSort pubYearGe _).mem_iff).mp h2

/-- C3 counterexample: the free-text query is interpolated into an SQL
`ILIKE` pattern, so `%` acts as a wildcard, not a literal character: the
query `"a%b"` keeps the record titled `"axb"` (total 1) although neither
its title nor its abstract contains `"a%b"` as a (case-insensitive)
substring.  This refutes "keeps exactly the records whose title OR
abstract contains it as a case-insensitive substring" for every query. -/
theorem c3_wildcard_query_counterexample :
    (search_publications exWildDb (some "a%b") noFilters 20 0).total = 1 ∧
    occursIn (lowerStr "a%b".data) (lowerStr wildPub.title.data) = false ∧
    occursIn (lowerStr "a%b".data) (lowerStr wildPub.abstract.data) = false := by
  decide

/-- C3 (amended): supplied (truthy) exact-match filters are applied
conjunctively; a non-empty free-text query keeps exactly the records whose
title or abstract matches the SQL pattern `%query%` case-insensitively —
which, for queries containing no `%`/`_` wildcard, is exactly
case-insensitive substring containment; results are ordered by descending
publication year, sliced by offset/limit, and the reported total is the
size of the full filtered set (e.g. limit 2, offset 1 over 5 matches
returns records 2 and 3 with total 5). -/
theorem c3_search_filters_pagination :
    (∀ (db : DB) (q : Option String) (fl : Filters) (limit offset : Nat),
      (search_publications db q fl limit offset).total =
        (db.pubs.filter fun r => matchesFilters fl r && matchesQuery q r).length) ∧
    (∀ (db : DB) (q : Option String) (fl : Filters) (limit offset : Nat)
        (p : PubRec),
      p ∈ (search_publications db q fl limit offset).publications →
        p ∈ db.pubs ∧ matchesFilters fl p = true ∧ matchesQuery q p = true) ∧
    (∀ (fl : Filters) (p : PubRec) (v : String),
      matchesFilters fl p = true → fl.organism_type = some v →
      v.data.isEmpty = false → p.organism_type = v) ∧
    (∀ (fl : Filters) (p : PubRec) (y : Int),
      matchesFilters fl p = true → fl.publication_year = some y →
      y ≠ 0 → p.publication_year = some y) ∧
    (∀ (db : DB) (q : Option String) (fl : Filters) (limit offset : Nat),
      (search_publications db q fl limit offset).publications.Pairwise pubYearGe) ∧
    (∀ (db : DB) (q : Option String) (fl : Filters) (limit offset : Nat),
      (search_publications db q fl limit offset).publications.length ≤ limit) ∧
    (∀ (db : DB) (s : String) (fl : Filters) (limit offset : Nat) (p : PubRec),
      noWild s.data = true →
      p ∈ (search_publications db (some s) fl limit offset).publications →
        occursIn (lowerStr s.data) (lowerStr p.title.data) = true ∨
        occursIn (lowerStr s.data) (lowerStr p.abstract.data) = true) ∧
    search_publications exSearchDb none ⟨some "Plant", none, none, none⟩ 2 1 =
      { publications := [plantPub 2 "n2" 2019, plantPub 3 "n3" 2018]
        total := 5, offset := 1, limit := 2 } := by
  refine ⟨?_, ?_, ?_, ?_, ?_, ?_, ?_, by decide⟩
  · intro db q fl limit offset
    rfl
  · intro db q fl limit offset p hp
    have h := List.mem_filter.mp (search_mem hp)
    exact ⟨h.1, (Bool.and_eq_true _ _).mp h.2⟩
  · intro fl p v hm hfl hv
    simp only [matchesFilters, Bool.and_eq_true] at hm
    obtain ⟨⟨⟨h1, -⟩, -⟩, -⟩ := hm
    rw [hfl] at h1
    simp only [filterStr] at h1
    rw [if_neg (by simp [hv])] at h1
    exact eq_of_beq h1
  · intro fl p y hm hfl hy
    simp only [matchesFilters, Bool.and_eq_true] at hm
    obtain ⟨⟨⟨-, -⟩, h3⟩, -⟩ := hm
    rw [hfl] at h3
    simp only [filterInt] at h3
    rw [if_neg (by simp [hy])] at h3
    exact eq_of_beq h3
  · intro db q fl limit offset
    haveI : IsTotal PubRec pubYearGe := ⟨fun a b => yearGe_total _ _⟩
    haveI : IsTrans PubRec pubYearGe := ⟨fun _ _ _ h1 h2 => yearGe_trans h1 h2⟩
    have hs := List.sorted_insertionSort pubYearGe
      (db.pubs.filter fun r => matchesFilters fl r && matchesQuery q r)
    exact hs.sublist ((List.take_sublist _ _).trans (List.drop_sublist _ _))
  · intro db q fl limit offset
    exact List.length_take_le _ _
  · intro db s fl limit offset p hw hp
    have h := List.mem_filter.mp (search_mem hp)
    have hq := ((Bool.and_eq_true _ _).mp h.2).2
    rw [matchesQuery_wildcard_free s p hw] at hq
    exact (Bool.or_eq_true _ _).mp hq

/-- C3 witness: the quantified parts applied to concrete searches. -/
theorem c3_search_filters_pagination_witness :
    (plantPub 2 "n2" 2019 ∈ exSearchDb.pubs ∧
      matchesFilters ⟨some "Plant", none, none, none⟩ (plantPub 2 "n2" 2019) = true ∧
      matchesQuery none (plantPub 2 "n2" 2019) = true) ∧
    (plantPub 2 "n2" 2019).organism_type = "Plant" ∧
    (occursIn (lowerStr "ax".data) (lowerStr wildPub.title.data) = true ∨
      occursIn (lowerStr "ax".data) (lowerStr wildPub.abstract.data) = true) :=
  ⟨c3_search_filters_pagination.2.1 exSearchDb none ⟨some "Plant", none, none, none⟩
      2 1 (plantPub 2 "n2" 2019) (by decide),
   c3_search_filters_pagination.2.2.1 ⟨some "Plant", none, none, none⟩
      (plantPub 2 "n2" 2019) "Plant" (by decide) rfl (by decide),
   c3_search_filters_pagination.2.2.2.2.2.2.1 exWildDb "ax" noFilters 20 0 wildPub
      (by decide) (by decide)⟩

/-- C10 counterexample: `_parse_date("2015-03-01T00:00:00Z")` does not
return a datetime with year 20 — it returns `None`.  The final `"%Y"`
pattern indeed sees only the first two characters (`date_str[:2] = "20"`),
but the CPython `%Y` directive requires exactly four digits
(`(?P<Y>\d\d\d\d)`), so that parse fails too, as do all the truncated
multi-field patterns. -/
theorem c10_parse_date_iso_counterexample :
    _parse_date "2015-03-01T00:00:00Z" = none := by decide

theorem altsY_short (l : List Char) (h : l.length < 4) : altsY l = [] := by
  rcases l with _ | ⟨a, _ | ⟨b, _ | ⟨c, _ | ⟨d, r⟩⟩⟩⟩
  · rfl
  · rfl
  · rfl
  · rfl
  · simp at h
    omega

/-- C10 (amended): truncation to the length of the pattern itself makes every
multi-field pattern fail on a standard ISO timestamp, and the final `"%Y"`
pattern parses only the first two characters of the input — too few for
the four digits `%Y` requires — so it never succeeds on any input:
`_parse_date("2015-03-01T00:00:00Z")` returns null, not a datetime. -/
theorem c10_parse_date_truncation :
    _parse_date "2015-03-01T00:00:00Z" = none ∧
    ∀ s : String,
      runFmt (toItems ("%Y" : String).data)
        (s.data.take (truncLen ("%Y" : String).data)) defaultDT = none := by
  refine ⟨by decide, ?_⟩
  intro s
  have hlen : (s.data.take (truncLen ("%Y" : String).data)).length < 4 := by
    have h1 := List.length_take_le (truncLen ("%Y" : String).data) s.data
    have h2 : truncLen ("%Y" : String).data = 2 := rfl
    omega
  have h0 : altsY (s.data.take (truncLen ("%Y" : String).data)) = [] :=
    altsY_short _ hlen
  show (altsY (s.data.take (truncLen ("%Y" : String).data))).findSome? _ = none
  rw [h0]
  rfl

/-- C4: cosine similarity on term-frequency vectors is symmetric; a
non-empty vector has self-similarity exactly 1; vectors with disjoint key
sets score exactly 0; and the empty vector scores exactly 0 against any
vector — the magnitude clamp to 1.0 only prevents division by zero and
never produces a nonzero score.  (Floats are modelled as exact reals.) -/
theorem c4_cosine_similarity_properties :
    (∀ a b : TermVec, _cosine_sim a b = _cosine_sim b a) ∧
    (∀ a : TermVec, a ≠ 0 → _cosine_sim a a = 1) ∧
    (∀ a b : TermVec, Disjoint a.support b.support → _cosine_sim a b = 0) ∧
    (∀ d : TermVec, _cosine_sim 0 d = 0) := by
  refine ⟨?_, ?_, ?_, ?_⟩
  · intro a b
    unfold _cosine_sim
    have hdot : cosDot a b = cosDot b a := by
      unfold cosDot
      rw [Finset.union_comm]
      exact Finset.sum_congr rfl fun x _ => mul_comm _ _
    rw [hdot, mul_comm]
  · intro a ha
    unfold _cosine_sim cosDot magOr1
    rw [Finset.union_self]
    have hpos : 0 < ∑ t ∈ a.support, a t * a t := by
      obtain ⟨t, ht⟩ := Finsupp.support_nonempty_iff.mpr ha
      refine Finset.sum_pos' (fun i _ => mul_self_nonneg _) ⟨t, ht, ?_⟩
      exact mul_self_pos.mpr (Finsupp.mem_support_iff.mp ht)
    have hsqrt : ¬(Real.sqrt (∑ t ∈ a.support, a t * a t) = 0) :=
      ne_of_gt (Real.sqrt_pos.mpr hpos)
    simp only [if_neg hsqrt]
    rw [Real.mul_self_sqrt (le_of_lt hpos)]
    exact div_self (ne_of_gt hpos)
  · intro a b hdisj
    unfold _cosine_sim cosDot
    have hz : ∀ t ∈ a.support ∪ b.support, a t * b t = 0 := by
      intro t ht
      rcases Finset.mem_union.mp ht with h | h
      · rw [Finsupp.not_mem_support_iff.mp (Finset.disjoint_left.mp hdisj h),
          mul_zero]
      · rw [Finsupp.not_mem_support_iff.mp (Finset.disjoint_right.mp hdisj h),
          zero_mul]
    rw [Finset.sum_eq_zero hz, zero_div]
  · intro d
    unfold _cosine_sim cosDot
    have hz : ∀ t ∈ (0 : TermVec).support ∪ d.support, (0 : TermVec) t * d t = 0 := by
      intro t _
      rw [Finsupp.coe_zero, Pi.zero_apply, zero_mul]
    rw [Finset.sum_eq_zero hz, zero_div]

/-- C4 witness: self-similarity 1 on a concrete non-empty vector and
similarity 0 on concrete disjoint vectors. -/
theorem c4_cosine_similarity_properties_witness :
    _cosine_sim (Finsupp.single "aa" 1) (Finsupp.single "aa" 1) = 1 ∧
    _cosine_sim (Finsupp.single "aa" 1) (Finsupp.single "bb" 1) = 0 :=
  ⟨c4_cosine_similarity_properties.2.1 _ (by simp [Finsupp.single_eq_zero]),
   c4_cosine_similarity_properties.2.2.1 _ _ (by
     rw [Finsupp.support_single_ne_zero _ one_ne_zero,
       Finsupp.support_single_ne_zero _ one_ne_zero]
     simp)⟩

end AstroBio
